import Mathlib

/-!
Shallow embedding of `src/main.py`, a Telegram relay bot that forwards group
and private messages to a fixed administrator list and routes administrators'
replies back through a per-administrator pending-action store.

Conventions used throughout:

* The transport layer (the `telegram` library objects and outbound API calls)
  is treated as an external collaborator.  Every outbound call the code issues
  is recorded as an `Eff` value, in program order; attributes the code reads
  off transport objects (`message.text`, `message.content_type`,
  `message.photo`, ...) enter as parameters.  Transport failures inside a
  per-recipient `try` are driven by an explicit `failing` oracle parameter.
* Python dicts keyed by integer ids are embedded as association lists with
  `dictGet` (`d.get(k)` / `k in d`), `dictSet` (`d[k] = v`) and `dictPop`
  (`d.pop(k, None)`).
* Logging calls have no effect in the embedding, with one semantic exception:
  a log statement's f-string arguments are evaluated eagerly, and at line 319
  `process_admin_reply` interpolates `user.id` although no name `user` is
  bound in that function or at module level.  Every call therefore raises
  `NameError` at line 319, which the function's own `except Exception`
  (line 396) swallows after logging.  `process_admin_reply` is consequently a
  state-preserving no-op with no outbound effects; the rest of its body
  (lines 321-395), unreachable as written, is embedded separately as
  `process_admin_reply_body`.
* `datetime.now()` values enter as `Nat` parameters named `now`; `strftime`
  rendering of a timestamp is abstracted to `toString`.
* Python `s.split('_')`, `s.startswith(p)` and `int(s)` are embedded as the
  executable `pySplitOn`, `pyStartsWith` and `pyToInt?` below; a raising
  `int(...)` is `none`, and the surrounding `try/except` paths are embedded
  explicitly.
-/

namespace Mstgbot

/-- Python dict lookup `d.get(k)` (also `k in d`, via `Option.isSome`) on an
association list; first match wins, matching dict semantics since keys are
unique in every reachable state. -/
def dictGet {α : Type} : List (Int × α) → Int → Option α
  | [], _ => none
  | p :: rest, k => if p.1 = k then some p.2 else dictGet rest k

/-- Python dict write `d[k] = v`: overwrite in place if the key is present,
append otherwise. -/
def dictSet {α : Type} : List (Int × α) → Int → α → List (Int × α)
  | [], k, v => [(k, v)]
  | p :: rest, k, v => if p.1 = k then (k, v) :: rest else p :: dictSet rest k v

/-- Python `d.pop(k, None)` restricted to its effect on the dict. -/
def dictPop {α : Type} : List (Int × α) → Int → List (Int × α)
  | [], _ => []
  | p :: rest, k => if p.1 = k then rest else p :: dictPop rest k

/-- Worker for `pySplitOn`: accumulates the current field (reversed). -/
def splitAux (sep : Char) : List Char → List Char → List (List Char)
  | [], acc => [acc.reverse]
  | c :: rest, acc =>
      if c = sep then acc.reverse :: splitAux sep rest []
      else splitAux sep rest (c :: acc)

/-- Python `s.split(sep)` for a one-character separator. -/
def pySplitOn (s : String) (sep : Char) : List String :=
  (splitAux sep s.data []).map (fun cs => String.mk cs)

/-- Python `s.startswith(p)`. -/
def pyStartsWith (s p : String) : Bool :=
  p.data.isPrefixOf s.data

/-- Worker for `pyToInt?`: folds decimal digits, failing on a non-digit. -/
def digitsToNatAux : List Char → Nat → Option Nat
  | [], acc => some acc
  | c :: rest, acc =>
      if c.isDigit then digitsToNatAux rest (acc * 10 + (c.toNat - '0'.toNat))
      else none

/-- Python `int(s)` for the numeral shapes this program produces and consumes:
an optional leading minus sign followed by decimal digits.  Any other shape
raises `ValueError`, embedded as `none`. -/
def pyToInt? (s : String) : Option Int :=
  match s.data with
  | [] => none
  | '-' :: rest =>
      if rest.isEmpty then none
      else (digitsToNatAux rest 0).map (fun n => -(n : Int))
  | l => (digitsToNatAux l 0).map (fun n => (n : Int))

/-- src/main.py lines 38-43: `GroupConfig(chat_id, title)` stores the id, the
title and `last_activity = datetime.now()`. -/
structure GroupConfig where
  chat_id : Int
  title : String
  last_activity : Nat
deriving DecidableEq

/-- src/main.py lines 203-208: the `user_messages` record written by
`forward_private_message`. -/
structure UserMsgInfo where
  name : String
  username : Option String
  last_message : Int
  timestamp : Nat
deriving DecidableEq

/-- The per-administrator `user_context` dict values.  Each constructor mirrors
one dict shape the source writes (or, for `sendToGroup`, tests for):
`replyToUser` is lines 261-265, `groupReply` lines 272-276, `userReply`
lines 293-302.  No code path ever writes a dict with
`action == 'send_to_group'` (the `select_group_` buttons built at line 417
have no branch in `handle_button_click`), so `sendToGroup` is included only
for the dead branch at lines 548-576. -/
inductive CtxData where
  | replyToUser (target_user_id : Int) (timestamp : Nat)
  | groupReply (group_id : Int) (timestamp : Nat)
  | userReply (group_id : Int) (message_id : Int)
      (content_type : Option String) (file_id : Option String) (timestamp : Nat)
  | sendToGroup (group_id : Int)
deriving DecidableEq

/-- src/main.py lines 45-51: process-wide mutable state. -/
structure BotData where
  admin_ids : List Int
  groups : List (Int × GroupConfig)
  user_context : List (Int × CtxData)
  user_messages : List (Int × UserMsgInfo)
deriving DecidableEq

/-- Message content as the handlers classify it: the code tests
`message.text`, `elif message.photo`, `elif message.document`, and reads
`message.content_type` for the fan-out media path.  `photo` carries the list
of `PhotoSize` file ids (the code sends `photo[-1].file_id`); `video`,
`audio` and `voice` are single media objects whose file id the dispatcher
never reads. -/
inductive MsgContent where
  | text (s : String)
  | photo (file_ids : List String)
  | document (file_id : String)
  | video (file_id : String)
  | audio (file_id : String)
  | voice (file_id : String)
deriving DecidableEq

/-- A private message from an administrator as consumed by
`handle_admin_private_message` / `process_admin_reply`. -/
structure AdminMsg where
  from_user : Int
  content : MsgContent
  caption : Option String
  reply_to_message : Bool
deriving DecidableEq

/-- A group message as consumed by `handle_group_message` (sender display
fields are used only in button labels and are not modelled). -/
structure GroupMsg where
  chat_id : Int
  message_id : Int
  content : MsgContent
deriving DecidableEq

/-- `query.message.reply_to_message` as read by the `user_reply_` branch of
`handle_button_click` (lines 285-300): the five media attributes probed by the
`next(...)` generator.  `photo` holds file ids; for `document` the file id;
`video`/`audio`/`voice` are truthiness flags (their file ids are never read
because `media[-1]` on a single media object raises first, see
`origFileId`). -/
structure OrigMsg where
  photo : List String
  document : Option String
  video : Bool
  audio : Bool
  voice : Bool
deriving DecidableEq

/-- One outbound transport call, in program order.  `sendMessage`,
`sendPhoto`, `sendDocument` are the direct `context.bot.send_*` calls;
`fanoutText`/`fanoutMedia` are the per-administrator context lines (with
inline keyboards, recorded as their `callback_data` strings) that the two
fan-out loops attach under a forwarded copy; `replyText` is
`message.reply_text` back to the invoking chat; `answerCallback` is
`query.answer`. -/
inductive Eff where
  | sendMessage (chat_id : Int) (text : String) (reply_to_message_id : Option Int)
  | sendPhoto (chat_id : Int) (file_id : String) (caption : Option String)
      (reply_to_message_id : Option Int)
  | sendDocument (chat_id : Int) (file_id : String) (caption : Option String)
      (reply_to_message_id : Option Int)
  | fanoutText (chat_id : Int) (text : String) (buttons : List String)
  | fanoutMedia (chat_id : Int) (kind : String) (file_id : String)
      (caption : String) (buttons : List String)
  | forward (to_chat : Int) (src_chat : Int) (src_message : Int)
  | replyText (text : String)
  | replyKeyboard (text : String) (buttons : List String)
  | answerCallback (text : String)
  | editReplyMarkup
  | deleteMessage
  | leaveChat (chat_id : Int)
deriving DecidableEq

/-- src/main.py lines 57-65, `init_bot_data`: parse the `ADMIN_IDS`
environment string (split on commas, strip, keep non-empty tokens, `int`
each).  A raising `int(...)` propagates (the handler re-raises), embedded as
`none`. -/
def init_bot_data (bd : BotData) (env : String) : Option BotData :=
  (((pySplitOn env ',').filterMap
      (fun t => let s := t.trim; if s = "" then none else some s)).mapM pyToInt?).map
    (fun ids => { bd with admin_ids := ids })

/-- src/main.py lines 67-89, the `/start` command. -/
def start (bd : BotData) (uid : Int) : BotData × List Eff :=
  if uid ∈ bd.admin_ids then
    (bd, [Eff.replyText ("🤖 增强版群管机器人已就绪\n\n管理员命令:\n/send - 主动发送群组消息\n/groups - 查看管理群组\n/status - 查看系统状态\n/addadmin - 添加管理员\n\n普通用户可直接发送消息给管理员")])
  else
    (bd, [Eff.replyText ("👋 您好！消息已转发给管理员\n请等待管理员回复...")])

/-- The `for user in update.message.new_chat_members` loop of
`handle_new_chat_members` (lines 106-134).  When the joining member is the bot
itself: without administrator permission it warns, leaves and `return`s
(ending the whole loop); with permission it unconditionally overwrites
`bot_data.groups[chat.id]` with a fresh `GroupConfig`, notifies every
administrator (per-recipient `try/except`, always succeeding in the model)
and announces activation in the group. -/
def newMembersLoop (chat_id : Int) (title : String) (bot_id : Int)
    (hasPerm : Bool) (now : Nat) : BotData → List Int → BotData × List Eff
  | b, [] => (b, [])
  | b, u :: rest =>
      if u = bot_id then
        if hasPerm then
          let b' : BotData :=
            { b with groups := dictSet b.groups chat_id ⟨chat_id, title, now⟩ }
          let pair := newMembersLoop chat_id title bot_id hasPerm now b' rest
          (pair.1,
            (b'.admin_ids.map (fun a =>
              Eff.sendMessage a
                ("📌 新群组加入:\n名称: " ++ title ++ "\nID: " ++ toString chat_id) none))
            ++ [Eff.sendMessage chat_id "✅ 消息转发已激活" none] ++ pair.2)
        else
          (b, [Eff.sendMessage chat_id "⚠️ 需要管理员权限才能工作！" none,
               Eff.leaveChat chat_id])
      else newMembersLoop chat_id title bot_id hasPerm now b rest

/-- src/main.py lines 102-136, `handle_new_chat_members`.  The result of
`verify_bot_permissions` (an external `chat.get_member` query, lines 91-100)
enters as `hasPerm`. -/
def handle_new_chat_members (bd : BotData) (chat_id : Int) (title : String)
    (new_members : List Int) (bot_id : Int) (hasPerm : Bool) (now : Nat) :
    BotData × List Eff :=
  newMembersLoop chat_id title bot_id hasPerm now bd new_members

/-- The per-administrator context line the two fan-out loops attach under a
forwarded copy (lines 169-187 and 221-239).  For `text` it is a
`send_message`; for `photo`/`document` a dynamic `send_<content_type>` with
the caption; for `video`/`audio`/`voice` the expression
`media[-1].file_id` (line 179 / 231) raises `TypeError` on a single media
object, which the per-recipient `try/except` swallows, so no context line is
sent (the forward itself has already succeeded).  An empty `photo` list is
likewise a raising `[-1]`. -/
def fanoutInfoEffs (a : Int) (cap : String) (buttons : List String) :
    MsgContent → List Eff
  | .text _ => [Eff.fanoutText a cap buttons]
  | .photo fids =>
      match fids.getLast? with
      | some fid => [Eff.fanoutMedia a "photo" fid cap buttons]
      | none => []
  | .document fid => [Eff.fanoutMedia a "document" fid cap buttons]
  | _ => []

/-- The `for admin_id in bot_data.admin_ids` fan-out loop shared (by
copy/paste) between `handle_group_message` (lines 165-189) and
`forward_private_message` (lines 217-241): each recipient gets
`message.forward(admin_id)` then a context line; a recipient in `failing`
raises on the forward, is logged and skipped, and the loop continues. -/
def fanoutLoop (src_chat src_msg : Int) (cap : String) (buttons : List String)
    (content : MsgContent) (failing : List Int) : List Int → List Eff
  | [] => []
  | a :: rest =>
      (if failing.contains a then []
       else Eff.forward a src_chat src_msg :: fanoutInfoEffs a cap buttons content)
      ++ fanoutLoop src_chat src_msg cap buttons content failing rest

/-- src/main.py lines 138-191, `handle_group_message`: drop messages from
unregistered groups, refresh `last_activity`, fan out to every administrator
with the two reply controls. -/
def handle_group_message (bd : BotData) (m : GroupMsg) (now : Nat)
    (failing : List Int) : BotData × List Eff :=
  match dictGet bd.groups m.chat_id with
  | none => (bd, [])
  | some g =>
      let bd' : BotData :=
        { bd with groups := dictSet bd.groups m.chat_id { g with last_activity := now } }
      let buttons := ["group_reply_" ++ toString m.chat_id,
                      "user_reply_" ++ toString m.chat_id ++ "_" ++ toString m.message_id]
      (bd', fanoutLoop m.chat_id m.message_id ("来自: " ++ g.title) buttons
              m.content failing bd'.admin_ids)

/-- src/main.py lines 193-245, `forward_private_message`: ignore
administrators, record the sender in `user_messages`, fan out to every
administrator with a `reply_user_<uid>` control, then acknowledge to the
sender. -/
def forward_private_message (bd : BotData) (uid : Int) (full_name : String)
    (username : Option String) (message_id : Int) (content : MsgContent)
    (now : Nat) (failing : List Int) : BotData × List Eff :=
  if uid ∈ bd.admin_ids then (bd, [])
  else
    let bd' : BotData :=
      { bd with user_messages := dictSet bd.user_messages uid
                  ⟨full_name, username, message_id, now⟩ }
    let cap := "👤 来自用户 " ++ full_name ++ " (ID: " ++ toString uid ++ ")"
    let buttons := ["reply_user_" ++ toString uid]
    (bd', fanoutLoop uid message_id cap buttons content failing bd'.admin_ids
            ++ [Eff.replyText "✅ 您的消息已转发给管理员"])

/-- Lines 287-291: `content_type = next((t for t in ['photo', 'document',
'video', 'audio', 'voice'] if getattr(original_msg, t, None)), None)`. -/
def origContentType (o : OrigMsg) : Option String :=
  if o.photo ≠ [] then some "photo"
  else if o.document.isSome then some "document"
  else if o.video then some "video"
  else if o.audio then some "audio"
  else if o.voice then some "voice"
  else none

/-- Lines 298-300: the `'file_id'` entry of the context dict.  `document`
reads `.file_id` directly; `photo` reads `[-1].file_id` of the size list;
`video`/`audio`/`voice` evaluate `media[-1]` on a single media object, which
raises `TypeError` (outer result `none` = the handler's `except` path runs
before any state is written); with no media the entry is `None`. -/
def origFileId (o : OrigMsg) : Option (Option String) :=
  match origContentType o with
  | some "document" => some o.document
  | some "photo" => some o.photo.getLast?
  | some _ => none
  | none => some none

/-- src/main.py lines 247-312, `handle_button_click`.  Branch structure: the
administrator gate answers and returns before any payload parsing; then the
`reply_user_` / `group_reply_` / `user_reply_` prefixes are tried in that
order, each parsing underscore-separated integer fields with `int(...)` whose
`ValueError` (and the `TypeError` of `origFileId`) lands in the outer
`except`, which answers `⚠️ 操作失败` and skips the trailing
`query.delete_message()`. -/
def handle_button_click (bd : BotData) (uid : Int) (data : String)
    (orig : OrigMsg) (now : Nat) : BotData × List Eff :=
  if uid ∉ bd.admin_ids then
    (bd, [Eff.answerCallback "❌ 需要管理员权限"])
  else if pyStartsWith data "reply_user_" then
    match pyToInt? ((pySplitOn data '_').getD 2 "") with
    | some t =>
        ({ bd with user_context := dictSet bd.user_context uid (CtxData.replyToUser t now) },
         [Eff.answerCallback "请输入回复内容...", Eff.editReplyMarkup, Eff.deleteMessage])
    | none => (bd, [Eff.answerCallback "⚠️ 操作失败"])
  else if pyStartsWith data "group_reply_" then
    match pyToInt? ((pySplitOn data '_').getD 2 "") with
    | some g =>
        ({ bd with user_context := dictSet bd.user_context uid (CtxData.groupReply g now) },
         [Eff.answerCallback "请输入要发送到群组的消息...", Eff.deleteMessage])
    | none => (bd, [Eff.answerCallback "⚠️ 操作失败"])
  else if pyStartsWith data "user_reply_" then
    let parts := pySplitOn data '_'
    if parts.length ≥ 4 then
      match pyToInt? (parts.getD 2 ""), pyToInt? (parts.getD 3 "") with
      | some g, some mid =>
          (match origFileId orig with
           | some fid =>
               ({ bd with user_context := dictSet bd.user_context uid
                            (CtxData.userReply g mid (origContentType orig) fid now) },
                [Eff.answerCallback "请输入回复内容...", Eff.deleteMessage])
           | none => (bd, [Eff.answerCallback "⚠️ 操作失败"]))
      | _, _ => (bd, [Eff.answerCallback "⚠️ 操作失败"])
    else
      (bd, [Eff.answerCallback "⚠️ 操作失败", Eff.deleteMessage])
  else (bd, [Eff.deleteMessage])

/-- src/main.py lines 314-397, `process_admin_reply`, as written.  Line 318
only reads the store (`bot_data.user_context.get(user_id, {})`); line 319 then
evaluates `f"处理管理员回复 - 用户: {user.id} 上下文: {context_data}"`, and no
name `user` is bound in this function or at module level, so every call
raises `NameError` there; the function's own `except Exception` (line 396)
logs it and returns.  Net behaviour: state unchanged, no outbound calls.
The remainder of the body, never reached, is `process_admin_reply_body`. -/
def process_admin_reply (bd : BotData) (m : AdminMsg) : BotData × List Eff :=
  (bd, [])

/-- `context_data.get('group_id')`: present in every context shape except
`replyToUser` (whose dict has no `group_id` key). -/
def ctxGroupId : CtxData → Option Int
  | .replyToUser _ _ => none
  | .groupReply g _ => some g
  | .userReply g _ _ _ _ => some g
  | .sendToGroup g => some g

/-- `context_data.get('message_id')`: present only in the `user_reply_`
context shape. -/
def ctxMessageId : CtxData → Option Int
  | .userReply _ mid _ _ _ => some mid
  | _ => none

/-- Line 327/351: `bot_data.user_messages.get(target_user_id, {})` followed by
`user_info.get('name', '未知用户')`. -/
def userDisplayName (bd : BotData) (t : Int) : String :=
  match dictGet bd.user_messages t with
  | some info => info.name
  | none => "未知用户"

/-- Lines 321-395 of `process_admin_reply`: the dispatch logic that would run
if the logging statement at line 319 did not raise (e.g. had it interpolated
`user_id` instead of `user.id`).  Unreachable in the source as written.
Faithful details: with no context it answers `⚠️ 会话已过期`; the
`reply_to_user` path sends text/photo/document (any other kind falls through
with no send), then reports success naming the cached user, and pops the
context in a `finally`; the group path reports `⚠️ 目标群组已失效` and
`return`s *before* the `try/finally` that pops the context, so the pending
entry survives that path; otherwise it sends text/photo/document threaded
under `message_id`, reports `✅ 消息已发送到群组` (no group title), and pops
the context. -/
def process_admin_reply_body (bd : BotData) (m : AdminMsg) : BotData × List Eff :=
  match dictGet bd.user_context m.from_user with
  | none => (bd, [Eff.replyText "⚠️ 会话已过期"])
  | some ctx =>
      match ctx with
      | .replyToUser t _ =>
          let sends : List Eff :=
            match m.content with
            | .text s => [Eff.sendMessage t ("📨 来自管理员的回复:\n" ++ s) none]
            | .photo fids =>
                match fids.getLast? with
                | some fid =>
                    [Eff.sendPhoto t fid (some ("📨 来自管理员的回复:\n" ++ m.caption.getD "")) none]
                | none => []
            | .document fid =>
                [Eff.sendDocument t fid (some ("📨 来自管理员的回复:\n" ++ m.caption.getD "")) none]
            | _ => []
          ({ bd with user_context := dictPop bd.user_context m.from_user },
           sends ++ [Eff.replyText ("✅ 回复已发送给用户 " ++ userDisplayName bd t)])
      | other =>
          match ctxGroupId other with
          | some g =>
              if (dictGet bd.groups g).isNone then
                (bd, [Eff.replyText "⚠️ 目标群组已失效"])
              else
                let rid := ctxMessageId other
                let sends : List Eff :=
                  match m.content with
                  | .text s => [Eff.sendMessage g s rid]
                  | .photo fids =>
                      match fids.getLast? with
                      | some fid => [Eff.sendPhoto g fid m.caption rid]
                      | none => []
                  | .document fid => [Eff.sendDocument g fid none rid]
                  | _ => []
                ({ bd with user_context := dictPop bd.user_context m.from_user },
                 sends ++ [Eff.replyText "✅ 消息已发送到群组"])
          | none => (bd, [Eff.replyText "⚠️ 目标群组已失效"])

/-- src/main.py lines 399-445, the `/send` command. -/
def send_to_group (bd : BotData) (uid : Int) (args : List String) :
    BotData × List Eff :=
  if uid ∉ bd.admin_ids then (bd, [Eff.replyText "❌ 需要管理员权限"])
  else if args.isEmpty then
    if bd.groups.isEmpty then (bd, [Eff.replyText "❌ 没有可用的群组"])
    else
      (bd, [Eff.replyKeyboard "请选择目标群组:"
              (bd.groups.map (fun p => "select_group_" ++ toString p.1))])
  else
    match pyToInt? (args.getD 0 "") with
    | none => (bd, [Eff.replyText "❌ 群组ID必须是数字"])
    | some g =>
        match dictGet bd.groups g with
        | none => (bd, [Eff.replyText "❌ 无效的群组ID"])
        | some gc =>
            (bd, [Eff.sendMessage g (String.intercalate " " args.tail) none,
                  Eff.replyText ("✅ 消息已发送到群组 " ++ gc.title)])

/-- One list entry of the `/groups` report (lines 463-468); `strftime`
abstracted to `toString`. -/
def groupEntryText (g : GroupConfig) : String :=
  "🏷️ " ++ g.title ++ "\nID: <code>" ++ toString g.chat_id ++ "</code>\n最后活动: "
    ++ toString g.last_activity ++ "\n━━━━━━━━━━━━━━\n"

/-- src/main.py lines 447-472, the `/groups` command. -/
def list_groups (bd : BotData) (uid : Int) : BotData × List Eff :=
  if uid ∉ bd.admin_ids then (bd, [Eff.replyText "❌ 需要管理员权限"])
  else if bd.groups.isEmpty then (bd, [Eff.replyText "尚未加入任何群组"])
  else
    (bd, [Eff.replyText
            ((bd.groups.map (fun p => groupEntryText p.2)).foldl (· ++ ·)
              "📋 当前管理的群组:\n\n")])

/-- src/main.py lines 474-499, the `/addadmin` command. -/
def add_admin (bd : BotData) (uid : Int) (args : List String) :
    BotData × List Eff :=
  if uid ∉ bd.admin_ids then (bd, [Eff.replyText "❌ 需要管理员权限"])
  else if args.isEmpty then (bd, [Eff.replyText "用法: /addadmin <用户ID>"])
  else
    match pyToInt? (args.getD 0 "") with
    | none => (bd, [Eff.replyText "❌ 无效的用户ID"])
    | some nid =>
        if nid ∉ bd.admin_ids then
          ({ bd with admin_ids := bd.admin_ids ++ [nid] },
           [Eff.replyText ("✅ 已添加用户 " ++ toString nid ++ " 为管理员")])
        else (bd, [Eff.replyText "ℹ️ 该用户已是管理员"])

/-- src/main.py lines 501-533, the `/status` command.  A non-administrator is
ignored with no response at all (line 507-508 is a bare `return`).  The log
tail read from disk enters as `logLines` (`none` = the read raised). -/
def check_message_status (bd : BotData) (uid : Int) (now : Nat)
    (logLines : Option (List String)) : BotData × List Eff :=
  if uid ∉ bd.admin_ids then (bd, [])
  else
    let lastAct : String :=
      if bd.groups.isEmpty then "无"
      else toString ((bd.groups.map (fun p => p.2.last_activity)).foldl max 0)
    let status :=
      "🔄 系统状态报告 [" ++ toString now ++ "]\n活跃群组: " ++ toString bd.groups.length
        ++ "\n待处理上下文: " ++ toString bd.user_context.length
        ++ "\n用户消息缓存: " ++ toString bd.user_messages.length
        ++ "\n最后活跃群组: " ++ lastAct
    let logEff : List Eff :=
      match logLines with
      | some ls => [Eff.replyText ("📜 最近日志:\n" ++ String.join (ls.drop (ls.length - 10)))]
      | none => [Eff.replyText "⚠️ 无法读取日志文件"]
    (bd, Eff.replyText status :: logEff)

/-- src/main.py lines 535-584, `handle_admin_private_message`: route on the
stored context's `action` key, else require a reply gesture
(`message.reply_to_message` truthy *and* the administrator present in
`user_context`) to reach `process_admin_reply`; otherwise answer the static
help prompt.  The `send_to_group` action branch (lines 548-576) is dead code
(nothing ever writes that action) but is embedded faithfully: it sends
text/photo/document without any registry check, confirms, and pops the
context only on success. -/
def handle_admin_private_message (bd : BotData) (m : AdminMsg) :
    BotData × List Eff :=
  match dictGet bd.user_context m.from_user with
  | some (CtxData.replyToUser _ _) => process_admin_reply bd m
  | some (CtxData.sendToGroup g) =>
      let sends : List Eff :=
        match m.content with
        | .text s => [Eff.sendMessage g s none]
        | .photo fids =>
            match fids.getLast? with
            | some fid => [Eff.sendPhoto g fid m.caption none]
            | none => []
        | .document fid => [Eff.sendDocument g fid none none]
        | _ => []
      ({ bd with user_context := dictPop bd.user_context m.from_user },
       sends ++ [Eff.replyText "✅ 消息已发送到群组"])
  | some _ =>
      if m.reply_to_message then process_admin_reply bd m
      else (bd, [Eff.replyText "ℹ️ 请使用命令或回复消息进行互动"])
  | none => (bd, [Eff.replyText "ℹ️ 请使用命令或回复消息进行互动"])

/-- Modelled from the spec (§4.1): `isAdmitted(id) → bool` "returns false if a
non-empty allow-list exists and id is absent from it, OR id is in the
block-list; true otherwise."  The source under `src/` contains no allow-list,
no block-list and no such check — the only admission gate when the bot joins
a group is the chat-administrator permission test in
`handle_new_chat_members` — so this definition follows the spec's words and
is compared against the admission behaviour the code actually implements. -/
def isAdmitted_spec (allow block : List Int) (g : Int) : Bool :=
  !((!allow.isEmpty && !(allow.contains g)) || block.contains g)

/-- The content kinds for which the reply dispatch logic has no branch
(neither `message.text` nor `message.photo` nor `message.document`): the
"unsupported" kinds of the spec's §4.4. -/
def dispatcherUnsupported : MsgContent → Bool
  | .video _ => true
  | .audio _ => true
  | .voice _ => true
  | _ => false

/-- The consumption pattern of the pending store used by the dispatcher body:
read (`get`, line 318) paired with removal (`pop`, lines 356/395). -/
def takePending (s : List (Int × CtxData)) (a : Int) :
    Option CtxData × List (Int × CtxData) :=
  (dictGet s a, dictPop s a)

/-- The destinations of the `message.forward` calls in an effect list. -/
def forwardTargets (effs : List Eff) : List Int :=
  effs.filterMap (fun e =>
    match e with
    | Eff.forward t _ _ => some t
    | _ => none)

/-- The set (as a list) of registered group ids. -/
def groupKeys (bd : BotData) : List Int :=
  bd.groups.map Prod.fst

/-- A `reply_to_message` with no media attributes (a plain text original). -/
def origEmpty : OrigMsg :=
  ⟨[], none, false, false, false⟩

/-! ### Helper lemmas about the dict operations and the fan-out loops -/

theorem dictGet_dictSet_self {α : Type} (l : List (Int × α)) (k : Int) (v : α) :
    dictGet (dictSet l k v) k = some v := by
  induction l with
  | nil => simp [dictSet, dictGet]
  | cons p rest ih =>
      by_cases h : p.1 = k
      · simp [dictSet, h, dictGet]
      · simp [dictSet, h, dictGet, ih]

theorem keys_subset_dictSet {α : Type} (l : List (Int × α)) (k : Int) (v : α) :
    l.map Prod.fst ⊆ (dictSet l k v).map Prod.fst := by
  induction l with
  | nil => simp [dictSet]
  | cons p rest ih =>
      by_cases h : p.1 = k
      · simp only [dictSet, if_pos h, List.map_cons]
        rw [h]
        exact List.Subset.refl _
      · simp only [dictSet, if_neg h, List.map_cons]
        exact List.cons_subset_cons _ ih

theorem forwardTargets_append (l₁ l₂ : List Eff) :
    forwardTargets (l₁ ++ l₂) = forwardTargets l₁ ++ forwardTargets l₂ := by
  simp [forwardTargets, List.filterMap_append]

theorem forwardTargets_fanoutInfoEffs (a : Int) (cap : String)
    (btns : List String) (c : MsgContent) :
    forwardTargets (fanoutInfoEffs a cap btns c) = [] := by
  cases c with
  | photo fids => cases h : fids.getLast? <;> simp [fanoutInfoEffs, forwardTargets, h]
  | _ => simp [fanoutInfoEffs, forwardTargets]

theorem forwardTargets_fanoutLoop (sc sm : Int) (cap : String)
    (btns : List String) (c : MsgContent) (failing : List Int) (ads : List Int) :
    forwardTargets (fanoutLoop sc sm cap btns c failing ads)
      = ads.filter (fun a => !failing.contains a) := by
  induction ads with
  | nil => simp [fanoutLoop, forwardTargets]
  | cons a rest ih =>
      by_cases hm : a ∈ failing
      · simp [fanoutLoop, hm, forwardTargets_append, ih, List.filter_cons]
      · rw [fanoutLoop, if_neg (by simp [hm]), List.cons_append, List.filter_cons]
        have hcons : forwardTargets
            (Eff.forward a sc sm :: (fanoutInfoEffs a cap btns c ++
              fanoutLoop sc sm cap btns c failing rest))
            = a :: (forwardTargets (fanoutInfoEffs a cap btns c) ++
                forwardTargets (fanoutLoop sc sm cap btns c failing rest)) := by
          simp [forwardTargets, List.filterMap_cons, List.filterMap_append]
        rw [hcons, forwardTargets_fanoutInfoEffs, ih]
        simp [hm]

theorem newMembersLoop_keys (cid : Int) (t : String) (bid : Int) (hp : Bool)
    (now : Nat) (mems : List Int) (b : BotData) :
    b.groups.map Prod.fst ⊆ ((newMembersLoop cid t bid hp now b mems).1).groups.map Prod.fst := by
  induction mems generalizing b with
  | nil => simp [newMembersLoop]
  | cons u rest ih =>
      by_cases hu : u = bid
      · cases hp with
        | true =>
            simp only [newMembersLoop, if_pos hu, if_true, ite_true]
            exact (keys_subset_dictSet b.groups cid ⟨cid, t, now⟩).trans
              (ih { b with groups := dictSet b.groups cid ⟨cid, t, now⟩ })
        | false => simp [newMembersLoop, hu]
      · simp only [newMembersLoop, if_neg hu]
        exact ih b

/-- Concrete reduction of `handle_button_click` on a `group_reply_100`
payload, used to chase the two-click scenario. -/
theorem click_group_reply_100 (bd : BotData) (uid : Int) (now : Nat)
    (h : uid ∈ bd.admin_ids) :
    handle_button_click bd uid "group_reply_100" origEmpty now
      = ({ bd with user_context := dictSet bd.user_context uid (CtxData.groupReply 100 now) },
         [Eff.answerCallback "请输入要发送到群组的消息...", Eff.deleteMessage]) := by
  unfold handle_button_click
  rw [if_neg (not_not_intro h),
      if_neg (by decide : ¬ (pyStartsWith "group_reply_100" "reply_user_" = true)),
      if_pos (by decide : pyStartsWith "group_reply_100" "group_reply_" = true),
      (by decide : pyToInt? ((pySplitOn "group_reply_100" '_').getD 2 "") = some 100)]

/-- Concrete reduction of `handle_button_click` on a `reply_user_200`
payload. -/
theorem click_reply_user_200 (bd : BotData) (uid : Int) (now : Nat)
    (h : uid ∈ bd.admin_ids) :
    handle_button_click bd uid "reply_user_200" origEmpty now
      = ({ bd with user_context := dictSet bd.user_context uid (CtxData.replyToUser 200 now) },
         [Eff.answerCallback "请输入回复内容...", Eff.editReplyMarkup, Eff.deleteMessage]) := by
  unfold handle_button_click
  rw [if_neg (not_not_intro h),
      if_pos (by decide : pyStartsWith "reply_user_200" "reply_user_" = true),
      (by decide : pyToInt? ((pySplitOn "reply_user_200" '_').getD 2 "") = some 200)]

/-! ### Per-handler registry preservation (for the registry-monotonicity claim) -/

theorem groups_start (bd : BotData) (uid : Int) :
    (start bd uid).1.groups = bd.groups := by
  unfold start; split <;> rfl

theorem groups_init (bd : BotData) (env : String) :
    ((init_bot_data bd env).getD bd).groups = bd.groups := by
  unfold init_bot_data
  cases ((pySplitOn env ',').filterMap
      (fun t => let s := t.trim; if s = "" then none else some s)).mapM pyToInt? <;> rfl

theorem groups_forward_private (bd : BotData) (uid : Int) (fn : String)
    (un : Option String) (mid : Int) (c : MsgContent) (now : Nat) (failing : List Int) :
    (forward_private_message bd uid fn un mid c now failing).1.groups = bd.groups := by
  unfold forward_private_message; split <;> rfl

theorem groups_button_click (bd : BotData) (uid : Int) (data : String)
    (orig : OrigMsg) (now : Nat) :
    (handle_button_click bd uid data orig now).1.groups = bd.groups := by
  unfold handle_button_click
  repeat' split
  all_goals simp only []
  all_goals repeat' split
  all_goals rfl

theorem groups_process_reply (bd : BotData) (m : AdminMsg) :
    (process_admin_reply bd m).1.groups = bd.groups := rfl

theorem groups_process_reply_body (bd : BotData) (m : AdminMsg) :
    (process_admin_reply_body bd m).1.groups = bd.groups := by
  unfold process_admin_reply_body
  repeat' split
  all_goals rfl

theorem groups_admin_private (bd : BotData) (m : AdminMsg) :
    (handle_admin_private_message bd m).1.groups = bd.groups := by
  unfold handle_admin_private_message process_admin_reply
  repeat' split
  all_goals rfl

theorem groups_send_to_group (bd : BotData) (uid : Int) (args : List String) :
    (send_to_group bd uid args).1.groups = bd.groups := by
  unfold send_to_group
  repeat' split
  all_goals rfl

theorem groups_list_groups (bd : BotData) (uid : Int) :
    (list_groups bd uid).1.groups = bd.groups := by
  unfold list_groups
  repeat' split
  all_goals rfl

theorem groups_add_admin (bd : BotData) (uid : Int) (args : List String) :
    (add_admin bd uid args).1.groups = bd.groups := by
  unfold add_admin
  repeat' split
  all_goals rfl

theorem groups_status (bd : BotData) (uid : Int) (now : Nat)
    (logs : Option (List String)) :
    (check_message_status bd uid now logs).1.groups = bd.groups := by
  unfold check_message_status
  repeat' split
  all_goals rfl

theorem keys_group_message (bd : BotData) (m : GroupMsg) (now : Nat)
    (failing : List Int) :
    groupKeys bd ⊆ groupKeys (handle_group_message bd m now failing).1 := by
  unfold handle_group_message groupKeys
  cases h : dictGet bd.groups m.chat_id with
  | none => simp [h]
  | some g =>
      simp only [h]
      exact keys_subset_dictSet bd.groups m.chat_id { g with last_activity := now }

/-! ### The claims -/

/-- C1 (counterexample): group 100 "Ops" is registered; administrator 7
activates the `group_reply_100` control, leaving the pending entry
`groupReply 100`; 7 then sends the private non-command text "ack".  Contrary
to the claim, no outbound send of "ack" to chat 100 is issued and no
confirmation naming "Ops" is produced, and the pending entry survives: when
the text is a reply gesture the dispatcher produces no effect at all
(`process_admin_reply` dies on its line-319 `NameError`), and when it is not,
only the static help prompt is returned. -/
theorem c1_counterexample :
    (handle_button_click ⟨[7], [(100, ⟨100, "Ops", 0⟩)], [], []⟩ 7 "group_reply_100" origEmpty 1).1
      = ⟨[7], [(100, ⟨100, "Ops", 0⟩)], [(7, CtxData.groupReply 100 1)], []⟩
  ∧ handle_admin_private_message
        ⟨[7], [(100, ⟨100, "Ops", 0⟩)], [(7, CtxData.groupReply 100 1)], []⟩
        ⟨7, MsgContent.text "ack", none, true⟩
      = (⟨[7], [(100, ⟨100, "Ops", 0⟩)], [(7, CtxData.groupReply 100 1)], []⟩, [])
  ∧ handle_admin_private_message
        ⟨[7], [(100, ⟨100, "Ops", 0⟩)], [(7, CtxData.groupReply 100 1)], []⟩
        ⟨7, MsgContent.text "ack", none, false⟩
      = (⟨[7], [(100, ⟨100, "Ops", 0⟩)], [(7, CtxData.groupReply 100 1)], []⟩,
         [Eff.replyText "ℹ️ 请使用命令或回复消息进行互动"]) := by
  exact ⟨by decide, by decide, by decide⟩

/-- C1 (amended): after an administrator's pending entry is the group-reply
directive for group g (what activating a `group_reply_` control writes), a
private non-command text message from that administrator issues no outbound
send, no confirmation, and leaves the whole state — in particular the pending
entry — unchanged; the administrator receives the static help prompt when the
message is not a reply gesture, and no response at all when it is (the
dispatcher aborts on the undefined name `user` in its first log statement). -/
theorem c1_amended (bd : BotData) (a g : Int) (ts : Nat) (s : String)
    (cap : Option String) (gesture : Bool)
    (h : dictGet bd.user_context a = some (CtxData.groupReply g ts)) :
    handle_admin_private_message bd ⟨a, MsgContent.text s, cap, gesture⟩
      = (bd, if gesture then []
             else [Eff.replyText "ℹ️ 请使用命令或回复消息进行互动"]) := by
  simp only [handle_admin_private_message, h]
  cases gesture <;> simp [process_admin_reply]

/-- Witness for `c1_amended` at administrator 7 with pending group 100. -/
theorem c1_amended_witness :
    dictGet [(7, CtxData.groupReply 100 1)] 7 = some (CtxData.groupReply 100 1)
  ∧ handle_admin_private_message
        ⟨[7], [(100, ⟨100, "Ops", 0⟩)], [(7, CtxData.groupReply 100 1)], []⟩
        ⟨7, MsgContent.text "ack", none, true⟩
      = (⟨[7], [(100, ⟨100, "Ops", 0⟩)], [(7, CtxData.groupReply 100 1)], []⟩, []) := by
  refine ⟨by decide, ?_⟩
  have h := c1_amended ⟨[7], [(100, ⟨100, "Ops", 0⟩)], [(7, CtxData.groupReply 100 1)], []⟩
    7 100 1 "ack" none true (by decide)
  simpa using h

/-- C2 (counterexample): the code has no allow-list and no block-list, so the
only configuration the claim ranges over is the empty/empty one, for which
the spec formula admits every group; but when the bot joins group 100 without
the chat-administrator permission, the group is not admitted (nothing is
registered and the bot leaves), refuting the claimed equivalence. -/
theorem c2_counterexample :
    isAdmitted_spec [] [] 100 = true
  ∧ (handle_new_chat_members ⟨[7], [], [], []⟩ 100 "Ops" [55] 55 false 3).1.groups = []
  ∧ (handle_new_chat_members ⟨[7], [], [], []⟩ 100 "Ops" [55] 55 false 3).2
      = [Eff.sendMessage 100 "⚠️ 需要管理员权限才能工作！" none, Eff.leaveChat 100] := by
  exact ⟨by decide, by decide, by decide⟩

/-- C2 (amended): the admission decision taken when the bot joins group g
depends only on whether the bot holds the chat-administrator permission in
that chat: with it the group is (re)registered as `⟨g, title, now⟩`, without
it the registry is untouched (the bot warns and leaves).  The group id plays
no role, and no allow-list or block-list exists in the code. -/
theorem c2_amended (bd : BotData) (g : Int) (t : String) (bid : Int)
    (hp : Bool) (now : Nat) :
    dictGet (handle_new_chat_members bd g t [bid] bid hp now).1.groups g
      = if hp then some ⟨g, t, now⟩ else dictGet bd.groups g := by
  cases hp <;> simp [handle_new_chat_members, newMembersLoop, dictGet_dictSet_self]

/-- C3 (counterexample): administrator 7 holds a pending reply-to-user action
for user 42 (cached name "Bob") and sends a voice message.  The dispatcher
issues no "unsupported message type" response — it issues nothing at all
(the line-319 `NameError`); and even its unreachable body would send nothing
to user 42 yet report success ("✅ 回复已发送给用户 Bob"). -/
theorem c3_counterexample :
    handle_admin_private_message
        ⟨[7], [], [(7, CtxData.replyToUser 42 0)], [(42, ⟨"Bob", none, 5, 0⟩)]⟩
        ⟨7, MsgContent.voice "vf", none, true⟩
      = (⟨[7], [], [(7, CtxData.replyToUser 42 0)], [(42, ⟨"Bob", none, 5, 0⟩)]⟩, [])
  ∧ process_admin_reply_body
        ⟨[7], [], [(7, CtxData.replyToUser 42 0)], [(42, ⟨"Bob", none, 5, 0⟩)]⟩
        ⟨7, MsgContent.voice "vf", none, true⟩
      = (⟨[7], [], [], [(42, ⟨"Bob", none, 5, 0⟩)]⟩,
         [Eff.replyText "✅ 回复已发送给用户 Bob"]) := by
  exact ⟨by decide, by decide⟩

/-- C3 (amended): a message of unsupported kind (video/audio/voice) from an
administrator holding a pending reply-to-user action is silently dropped: the
dispatcher as written issues no response and changes nothing (the line-319
`NameError`), and even its unreachable body sends nothing yet reports
success — no "unsupported message type" response exists anywhere in the
code. -/
theorem c3_amended (bd : BotData) (a t : Int) (ts : Nat) (c : MsgContent)
    (cap : Option String) (gesture : Bool)
    (hctx : dictGet bd.user_context a = some (CtxData.replyToUser t ts))
    (hc : dispatcherUnsupported c = true) :
    handle_admin_private_message bd ⟨a, c, cap, gesture⟩ = (bd, [])
  ∧ process_admin_reply_body bd ⟨a, c, cap, gesture⟩
      = ({ bd with user_context := dictPop bd.user_context a },
         [Eff.replyText ("✅ 回复已发送给用户 " ++ userDisplayName bd t)]) := by
  constructor
  · simp [handle_admin_private_message, hctx, process_admin_reply]
  · cases c <;> simp_all [process_admin_reply_body, dispatcherUnsupported]

/-- Witness for `c3_amended`: administrator 7, pending reply to user 42,
voice content. -/
theorem c3_amended_witness :
    dictGet [(7, CtxData.replyToUser 42 0)] 7 = some (CtxData.replyToUser 42 0)
  ∧ dispatcherUnsupported (MsgContent.voice "vf") = true
  ∧ handle_admin_private_message
        ⟨[7], [], [(7, CtxData.replyToUser 42 0)], [(42, ⟨"Bob", none, 5, 0⟩)]⟩
        ⟨7, MsgContent.voice "vf", none, true⟩
      = (⟨[7], [], [(7, CtxData.replyToUser 42 0)], [(42, ⟨"Bob", none, 5, 0⟩)]⟩, []) :=
  ⟨by decide, by decide,
   (c3_amended ⟨[7], [], [(7, CtxData.replyToUser 42 0)], [(42, ⟨"Bob", none, 5, 0⟩)]⟩
      7 42 0 (MsgContent.voice "vf") none true (by decide) (by decide)).1⟩

/-- C4 (counterexample): administrator 7 holds a pending group-reply action
for group 999, which is absent from the registry, and sends the reply text
"hi" (as a reply gesture).  No message is sent to 999 — but contrary to the
claim, no "target no longer valid" report is produced (the dispatcher dies on
its line-319 `NameError`), and the pending action is NOT consumed: the lookup
of 7 in the pending store still returns it.  Even the dispatcher's
unreachable body, which would produce the report, returns before the
`try/finally` that pops the entry. -/
theorem c4_counterexample :
    handle_admin_private_message ⟨[7], [], [(7, CtxData.groupReply 999 0)], []⟩
        ⟨7, MsgContent.text "hi", none, true⟩
      = (⟨[7], [], [(7, CtxData.groupReply 999 0)], []⟩, [])
  ∧ dictGet (handle_admin_private_message ⟨[7], [], [(7, CtxData.groupReply 999 0)], []⟩
        ⟨7, MsgContent.text "hi", none, true⟩).1.user_context 7
      = some (CtxData.groupReply 999 0)
  ∧ process_admin_reply_body ⟨[7], [], [(7, CtxData.groupReply 999 0)], []⟩
        ⟨7, MsgContent.text "hi", none, true⟩
      = (⟨[7], [], [(7, CtxData.groupReply 999 0)], []⟩,
         [Eff.replyText "⚠️ 目标群组已失效"]) := by
  exact ⟨by decide, by decide, by decide⟩

/-- C4 (amended): when an administrator holds a pending action with a group
target (group-reply or user-reply-in-group) whose group id is no longer in
the registry, the reply dispatch sends nothing to the group, but issues no
report either (help prompt without a reply gesture, nothing at all with one),
and the pending action is NOT consumed — the state, including the pending
entry, is unchanged.  The dispatcher's unreachable body would report
"⚠️ 目标群组已失效" and would likewise leave the pending entry in place. -/
theorem c4_amended (bd : BotData) (a g mid : Int) (ts : Nat)
    (ct fid : Option String) (s : String) (cap : Option String) (gesture : Bool)
    (hctx : dictGet bd.user_context a = some (CtxData.groupReply g ts)
          ∨ dictGet bd.user_context a = some (CtxData.userReply g mid ct fid ts))
    (hg : dictGet bd.groups g = none) :
    handle_admin_private_message bd ⟨a, MsgContent.text s, cap, gesture⟩
      = (bd, if gesture then []
             else [Eff.replyText "ℹ️ 请使用命令或回复消息进行互动"])
  ∧ process_admin_reply_body bd ⟨a, MsgContent.text s, cap, gesture⟩
      = (bd, [Eff.replyText "⚠️ 目标群组已失效"]) := by
  rcases hctx with h | h <;>
    refine ⟨?_, ?_⟩ <;>
      first
        | (simp only [handle_admin_private_message, h]
           cases gesture <;> simp [process_admin_reply])
        | simp [process_admin_reply_body, h, ctxGroupId, hg]

/-- Witness for `c4_amended`: administrator 7, pending group 999, empty
registry. -/
theorem c4_amended_witness :
    (dictGet [(7, CtxData.groupReply 999 0)] 7 = some (CtxData.groupReply 999 0)
      ∨ dictGet [(7, CtxData.groupReply 999 0)] 7
          = some (CtxData.userReply 999 1 none none 0))
  ∧ dictGet ([] : List (Int × GroupConfig)) 999 = none
  ∧ process_admin_reply_body ⟨[7], [], [(7, CtxData.groupReply 999 0)], []⟩
        ⟨7, MsgContent.text "hi", none, true⟩
      = (⟨[7], [], [(7, CtxData.groupReply 999 0)], []⟩,
         [Eff.replyText "⚠️ 目标群组已失效"]) :=
  ⟨Or.inl (by decide), by decide,
   (c4_amended ⟨[7], [], [(7, CtxData.groupReply 999 0)], []⟩ 7 999 1 0 none none
      "hi" none true (Or.inl (by decide)) (by decide)).2⟩

/-- C5 (counterexample): non-administrator 5 invokes the administrator-only
`/status` command; the handler responds with nothing at all — no
permission-denied message is surfaced — whereas `/send` (shown alongside)
does surface one. -/
theorem c5_counterexample :
    check_message_status ⟨[7], [], [], []⟩ 5 0 none = (⟨[7], [], [], []⟩, [])
  ∧ send_to_group ⟨[7], [], [], []⟩ 5 []
      = (⟨[7], [], [], []⟩, [Eff.replyText "❌ 需要管理员权限"]) := by
  exact ⟨by decide, by decide⟩

/-- C5 (amended): every administrator-only operation checks the invoker's
administrator status before any payload parsing and changes no state when the
check fails; the button handler and the `/send`, `/groups`, `/addadmin`
commands surface a "❌ 需要管理员权限" response, but the `/status` command
silently ignores the non-administrator (no response at all). -/
theorem c5_amended (bd : BotData) (uid : Int) (args : List String)
    (data : String) (orig : OrigMsg) (now : Nat) (logs : Option (List String))
    (h : uid ∉ bd.admin_ids) :
    handle_button_click bd uid data orig now
      = (bd, [Eff.answerCallback "❌ 需要管理员权限"])
  ∧ send_to_group bd uid args = (bd, [Eff.replyText "❌ 需要管理员权限"])
  ∧ list_groups bd uid = (bd, [Eff.replyText "❌ 需要管理员权限"])
  ∧ add_admin bd uid args = (bd, [Eff.replyText "❌ 需要管理员权限"])
  ∧ check_message_status bd uid now logs = (bd, []) := by
  refine ⟨?_, ?_, ?_, ?_, ?_⟩ <;>
    simp [handle_button_click, send_to_group, list_groups, add_admin,
          check_message_status, h]

/-- Witness for `c5_amended` at non-administrator 5. -/
theorem c5_amended_witness :
    (5 : Int) ∉ ([7] : List Int)
  ∧ check_message_status ⟨[7], [], [], []⟩ 5 0 none = (⟨[7], [], [], []⟩, []) :=
  ⟨by decide,
   (c5_amended ⟨[7], [], [], []⟩ 5 [] "group_reply_100" origEmpty 0 none
      (by decide)).2.2.2.2⟩

/-- C6: both fan-outs of a forwarded message to the administrator list are
best-effort: the administrators whose `message.forward` succeeds are exactly
those not in the failing set, independent of which other administrators fail
— one administrator's transport failure never prevents the attempts to the
remaining administrators (it is skipped and the loop continues). -/
theorem c6_fanout_best_effort (bd : BotData) (m : GroupMsg) (g : GroupConfig)
    (now : Nat) (failing : List Int) (uid : Int) (full_name : String)
    (username : Option String) (message_id : Int) (content : MsgContent)
    (hg : dictGet bd.groups m.chat_id = some g)
    (hu : uid ∉ bd.admin_ids) :
    forwardTargets (handle_group_message bd m now failing).2
      = bd.admin_ids.filter (fun a => !failing.contains a)
  ∧ forwardTargets
        (forward_private_message bd uid full_name username message_id content now failing).2
      = bd.admin_ids.filter (fun a => !failing.contains a) := by
  constructor
  · simp only [handle_group_message, hg]
    exact forwardTargets_fanoutLoop ..
  · unfold forward_private_message
    rw [if_neg hu]
    simp only []
    rw [forwardTargets_append, forwardTargets_fanoutLoop]
    simp [forwardTargets]

/-- Witness for `c6_fanout_best_effort`: administrators [7, 8, 9], 8 failing;
the forwards reach exactly 7 and 9. -/
theorem c6_fanout_witness :
    dictGet [(100, (⟨100, "Ops", 0⟩ : GroupConfig))] 100 = some ⟨100, "Ops", 0⟩
  ∧ (5 : Int) ∉ ([7, 8, 9] : List Int)
  ∧ forwardTargets
        (handle_group_message ⟨[7, 8, 9], [(100, ⟨100, "Ops", 0⟩)], [], []⟩
          ⟨100, 42, MsgContent.text "hello"⟩ 1 [8]).2
      = [7, 9] :=
  ⟨by decide, by decide,
   ((c6_fanout_best_effort ⟨[7, 8, 9], [(100, ⟨100, "Ops", 0⟩)], [], []⟩
      ⟨100, 42, MsgContent.text "hello"⟩ ⟨100, "Ops", 0⟩ 1 [8] 5 "u" none 9
      (MsgContent.text "x") (by decide) (by decide)).1).trans (by decide)⟩

/-- C7: the pending store is last-writer-wins with at most one entry per
administrator: writing X then Y for the same administrator and then consuming
yields Y and never X; concretely, two successive control activations by the
same administrator (a `group_reply_100` then a `reply_user_200`) leave only
the second directive in the store. -/
theorem c7_last_writer_wins (s : List (Int × CtxData)) (a : Int) (X Y : CtxData)
    (bd : BotData) (uid : Int) (n1 n2 : Nat)
    (hXY : X ≠ Y) (hadm : uid ∈ bd.admin_ids) :
    (takePending (dictSet (dictSet s a X) a Y) a).1 = some Y
  ∧ (takePending (dictSet (dictSet s a X) a Y) a).1 ≠ some X
  ∧ dictGet (handle_button_click
        (handle_button_click bd uid "group_reply_100" origEmpty n1).1
        uid "reply_user_200" origEmpty n2).1.user_context uid
      = some (CtxData.replyToUser 200 n2) := by
  refine ⟨?_, ?_, ?_⟩
  · simp [takePending, dictGet_dictSet_self]
  · simp only [takePending, dictGet_dictSet_self]
    simpa using Ne.symm hXY
  · rw [click_group_reply_100 bd uid n1 hadm]
    dsimp only
    rw [click_reply_user_200
          { bd with user_context := dictSet bd.user_context uid (CtxData.groupReply 100 n1) }
          uid n2 hadm]
    dsimp only
    exact dictGet_dictSet_self ..

/-- Witness for `c7_last_writer_wins` on two distinct group-reply
directives. -/
theorem c7_witness :
    (CtxData.groupReply 5 0 ≠ CtxData.groupReply 6 0)
  ∧ ((7 : Int) ∈ ([7] : List Int))
  ∧ (takePending (dictSet (dictSet [] 1 (CtxData.groupReply 5 0)) 1
        (CtxData.groupReply 6 0)) 1).1 = some (CtxData.groupReply 6 0) :=
  ⟨by decide, by decide,
   (c7_last_writer_wins [] 1 (CtxData.groupReply 5 0) (CtxData.groupReply 6 0)
      ⟨[7], [], [], []⟩ 7 0 1 (by decide) (by decide)).1⟩

/-- C8 (counterexample): group 100 is registered as ⟨100, "Ops", 5⟩; the bot
is added to it again at time 9.  The registry entry afterwards is
⟨100, "Ops", 9⟩ ≠ ⟨100, "Ops", 5⟩: re-registration is not an idempotent no-op
— the `last_activity` timestamp of the existing entry is reset. -/
theorem c8_counterexample :
    (handle_new_chat_members ⟨[7], [(100, ⟨100, "Ops", 5⟩)], [], []⟩
        100 "Ops" [55] 55 true 9).1.groups
      = [(100, ⟨100, "Ops", 9⟩)]
  ∧ ((⟨100, "Ops", 9⟩ : GroupConfig) ≠ ⟨100, "Ops", 5⟩) := by
  exact ⟨by decide, by decide⟩

/-- C8 (amended): registering a group that is already present is an
unconditional overwrite, not a no-op: `bot_data.groups[chat.id] =
GroupConfig(chat.id, chat.title)` replaces the existing entry with a fresh
one whose title comes from the event and whose `last_activity` is reset to
now. -/
theorem c8_amended (bd : BotData) (g : Int) (oldTitle : String) (t0 : Nat)
    (title : String) (bid : Int) (now : Nat)
    (h : dictGet bd.groups g = some ⟨g, oldTitle, t0⟩) :
    dictGet (handle_new_chat_members bd g title [bid] bid true now).1.groups g
      = some ⟨g, title, now⟩ := by
  simp [handle_new_chat_members, newMembersLoop, dictGet_dictSet_self]

/-- Witness for `c8_amended`: group 100 "Ops" at time 5, re-registered as
"Ops2" at time 9. -/
theorem c8_amended_witness :
    dictGet [(100, (⟨100, "Ops", 5⟩ : GroupConfig))] 100 = some ⟨100, "Ops", 5⟩
  ∧ dictGet (handle_new_chat_members ⟨[7], [(100, ⟨100, "Ops", 5⟩)], [], []⟩
        100 "Ops2" [55] 55 true 9).1.groups 100
      = some ⟨100, "Ops2", 9⟩ :=
  ⟨by decide,
   c8_amended ⟨[7], [(100, ⟨100, "Ops", 5⟩)], [], []⟩ 100 "Ops" 5 "Ops2" 55 9
     (by decide)⟩

/-- C9: an administrator's control activation whose payload starts with the
`user_reply_` tag but splits into fewer than four underscore-separated fields
is answered with the failure acknowledgement "⚠️ 操作失败" (and the stale
control is deleted), and the whole state — in particular the pending-action
store — is exactly what it was before. -/
theorem c9_malformed_user_reply (bd : BotData) (uid : Int) (data : String)
    (orig : OrigMsg) (now : Nat)
    (hadm : uid ∈ bd.admin_ids)
    (h1 : pyStartsWith data "reply_user_" = false)
    (h2 : pyStartsWith data "group_reply_" = false)
    (h3 : pyStartsWith data "user_reply_" = true)
    (h4 : (pySplitOn data '_').length < 4) :
    handle_button_click bd uid data orig now
      = (bd, [Eff.answerCallback "⚠️ 操作失败", Eff.deleteMessage]) := by
  have h5 : ¬ ((pySplitOn data '_').length ≥ 4) := by omega
  simp [handle_button_click, hadm, h1, h2, h3, h5]

/-- Witness for `c9_malformed_user_reply` on the three-field payload
`user_reply_9`. -/
theorem c9_witness :
    ((7 : Int) ∈ ([7] : List Int))
  ∧ pyStartsWith "user_reply_9" "reply_user_" = false
  ∧ pyStartsWith "user_reply_9" "group_reply_" = false
  ∧ pyStartsWith "user_reply_9" "user_reply_" = true
  ∧ (pySplitOn "user_reply_9" '_').length < 4
  ∧ handle_button_click ⟨[7], [], [], []⟩ 7 "user_reply_9" origEmpty 0
      = (⟨[7], [], [], []⟩, [Eff.answerCallback "⚠️ 操作失败", Eff.deleteMessage]) :=
  ⟨by decide, by decide, by decide, by decide, by decide,
   c9_malformed_user_reply ⟨[7], [], [], []⟩ 7 "user_reply_9" origEmpty 0
     (by decide) (by decide) (by decide) (by decide) (by decide)⟩

/-- C10: no handler or command ever removes a group from the registry — for
every embedded operation of the program, the set of registered group ids
after it runs is a superset of the set before (for all but
`handle_new_chat_members` and `handle_group_message` it is exactly equal), so
a group, once registered, stays registered for the life of the process. -/
theorem c10_groups_never_removed :
    (∀ (bd : BotData) (env : String),
        groupKeys bd ⊆ groupKeys ((init_bot_data bd env).getD bd))
  ∧ (∀ (bd : BotData) (uid : Int), groupKeys bd ⊆ groupKeys (start bd uid).1)
  ∧ (∀ (bd : BotData) (cid : Int) (t : String) (mems : List Int) (bid : Int)
        (hp : Bool) (now : Nat),
        groupKeys bd ⊆ groupKeys (handle_new_chat_members bd cid t mems bid hp now).1)
  ∧ (∀ (bd : BotData) (m : GroupMsg) (now : Nat) (failing : List Int),
        groupKeys bd ⊆ groupKeys (handle_group_message bd m now failing).1)
  ∧ (∀ (bd : BotData) (uid : Int) (fn : String) (un : Option String) (mid : Int)
        (c : MsgContent) (now : Nat) (failing : List Int),
        groupKeys bd ⊆ groupKeys (forward_private_message bd uid fn un mid c now failing).1)
  ∧ (∀ (bd : BotData) (uid : Int) (data : String) (orig : OrigMsg) (now : Nat),
        groupKeys bd ⊆ groupKeys (handle_button_click bd uid data orig now).1)
  ∧ (∀ (bd : BotData) (m : AdminMsg),
        groupKeys bd ⊆ groupKeys (process_admin_reply bd m).1)
  ∧ (∀ (bd : BotData) (m : AdminMsg),
        groupKeys bd ⊆ groupKeys (process_admin_reply_body bd m).1)
  ∧ (∀ (bd : BotData) (m : AdminMsg),
        groupKeys bd ⊆ groupKeys (handle_admin_private_message bd m).1)
  ∧ (∀ (bd : BotData) (uid : Int) (args : List String),
        groupKeys bd ⊆ groupKeys (send_to_group bd uid args).1)
  ∧ (∀ (bd : BotData) (uid : Int), groupKeys bd ⊆ groupKeys (list_groups bd uid).1)
  ∧ (∀ (bd : BotData) (uid : Int) (args : List String),
        groupKeys bd ⊆ groupKeys (add_admin bd uid args).1)
  ∧ (∀ (bd : BotData) (uid : Int) (now : Nat) (logs : Option (List String)),
        groupKeys bd ⊆ groupKeys (check_message_status bd uid now logs).1) := by
  refine ⟨?_, ?_, ?_, ?_, ?_, ?_, ?_, ?_, ?_, ?_, ?_, ?_, ?_⟩
  · intro bd env
    simp only [groupKeys, groups_init]
    exact List.Subset.refl _
  · intro bd uid
    simp only [groupKeys, groups_start]
    exact List.Subset.refl _
  · intro bd cid t mems bid hp now
    exact newMembersLoop_keys cid t bid hp now mems bd
  · intro bd m now failing
    exact keys_group_message bd m now failing
  · intro bd uid fn un mid c now failing
    simp only [groupKeys, groups_forward_private]
    exact List.Subset.refl _
  · intro bd uid data orig now
    simp only [groupKeys, groups_button_click]
    exact List.Subset.refl _
  · intro bd m
    simp only [groupKeys, groups_process_reply]
    exact List.Subset.refl _
  · intro bd m
    simp only [groupKeys, groups_process_reply_body]
    exact List.Subset.refl _
  · intro bd m
    simp only [groupKeys, groups_admin_private]
    exact List.Subset.refl _
  · intro bd uid args
    simp only [groupKeys, groups_send_to_group]
    exact List.Subset.refl _
  · intro bd uid
    simp only [groupKeys, groups_list_groups]
    exact List.Subset.refl _
  · intro bd uid args
    simp only [groupKeys, groups_add_admin]
    exact List.Subset.refl _
  · intro bd uid now logs
    simp only [groupKeys, groups_status]
    exact List.Subset.refl _

end Mstgbot
